import Mathlib

/-!
# Verification of the Gaffer MCP server core

A shallow embedding of the request-execution core of the Gaffer MCP server
(`src/api-client.ts` and the tool execution functions under `src/tools/`),
together with theorems settling the specified behavioural properties:

* the transport retry/backoff loop (`GafferApiClient.request`);
* credential classification (`detectTokenType`) and the capability gates;
* project-identity resolution and its cache (`GafferApiClient.resolveProjectId`);
* per-operation validation and query construction (`getTestHistory`,
  `getFlakyTests`, `getProjectHealth`, `executeCompareTestMetrics`,
  `executeGetTestHistory`).

JavaScript-specific behaviour is modelled explicitly: string/number
truthiness (`""` and `0` are falsy), `String.prototype.trim`,
`String.prototype.startsWith`, and the three observable JSON states of an
optional field (absent / null / present).
-/

namespace Gaffer

/-! ## JavaScript string primitives

The source is TypeScript, so the string operations it uses are the
JavaScript ones.  They are modelled over `String.data` (a `List Char`) so
that every definition reduces in the kernel.
-/

/-- Whitespace as recognised by `String.prototype.trim` (restricted to the
ASCII whitespace characters, which are the ones the repository's
validation semantics rely on). -/
def isJsSpace (c : Char) : Bool :=
  c = ' ' || c = '\t' || c = '\n' || c = '\r' || c = '\x0b' || c = '\x0c'

/-- Model of `String.prototype.trim`: strip leading and trailing whitespace. -/
def jsTrim (s : String) : String :=
  ⟨((s.data.dropWhile isJsSpace).reverse.dropWhile isJsSpace).reverse⟩

/-- Boolean test that the first character list is an initial segment of
the second. -/
def leadsWith : List Char → List Char → Bool
  | [], _ => true
  | _ :: _, [] => false
  | a :: as, b :: bs => a = b && leadsWith as bs

/-- Model of `String.prototype.startsWith`: `jsStartsWith s pre` is
JavaScript's `s.startsWith(pre)`. -/
def jsStartsWith (s pre : String) : Bool :=
  leadsWith pre.data s.data

/-- JavaScript truthiness of a string: `""` is falsy. -/
def strTruthy (s : String) : Bool := s != ""

/-- JavaScript truthiness of an optional string field
(`undefined` and `""` are falsy). -/
def optStrTruthy : Option String → Bool
  | some s => strTruthy s
  | none => false

/-- JavaScript truthiness of an optional numeric field
(`undefined` and `0` are falsy). -/
def optNatTruthy : Option Nat → Bool
  | some n => n != 0
  | none => false

/-- JavaScript truthiness of an optional (possibly fractional) numeric
field, for parameters such as `threshold`. -/
def optRatTruthy : Option Rat → Bool
  | some q => q != 0
  | none => false

/-! ## Transport core (`GafferApiClient.request`, src/api-client.ts)

The retry loop is modelled as a function of the sequence of fetch
outcomes: `outcomes n` is what the `fetch` on attempt `n` (0-indexed)
produces.  The model records the value returned or error thrown, the
number of attempts consumed, and the list of backoff sleeps performed.
-/

/-- Constant `REQUEST_TIMEOUT_MS` from src/api-client.ts. -/
def REQUEST_TIMEOUT_MS : Nat := 30000

/-- Constant `MAX_RETRIES` from src/api-client.ts. -/
def MAX_RETRIES : Nat := 3

/-- Constant `INITIAL_RETRY_DELAY_MS` from src/api-client.ts. -/
def INITIAL_RETRY_DELAY_MS : Nat := 1000

/-- Constant `RETRYABLE_STATUS_CODES` from src/api-client.ts. -/
def RETRYABLE_STATUS_CODES : List Nat := [401, 429, 500, 502, 503, 504]

/-- Outcome of one `fetch` attempt, as observed by the retry loop.

* `response status errorMessage retryAfterSecs body` — `fetch` resolved
  with an HTTP response.  `errorMessage` is
  `errorData.error?.message` after `response.json().catch(() => ({}))`
  (`none` when the body carries no structured error envelope), and
  `retryAfterSecs` is the `Retry-After` header already interpreted as an
  integer number of seconds (`none` when the header is missing).
* `timeout` — the 30 s abort fired (`AbortError`).
* `networkError msg` — a low-level connection failure (`TypeError`).
* `otherFailure msg` — any other thrown error. -/
inductive FetchOutcome where
  | response (status : Nat) (errorMessage : Option String)
      (retryAfterSecs : Option Nat) (body : String)
  | timeout
  | networkError (message : String)
  | otherFailure (message : String)
deriving Repr, DecidableEq

/-- Field `response.ok` of a fetch response: status in the 2xx range. -/
def statusOk (status : Nat) : Bool :=
  200 ≤ status && status ≤ 299

/-- Expression `errorData.error?.message` with its fallback to the
generic status message (src/api-client.ts lines 148 and 153). -/
def errorMessageFor (status : Nat) (errorMessage : Option String) : String :=
  errorMessage.getD ("API request failed: " ++ toString status)

/-- The backoff delay before the retry that follows attempt `attempt`:
`1000ms × 2^attempt`, raised to the `Retry-After` value (in ms) for a 429
response carrying that header (src/api-client.ts lines 141-147). -/
def retryDelayMs (status : Nat) (retryAfterSecs : Option Nat) (attempt : Nat) : Nat :=
  let delayMs := INITIAL_RETRY_DELAY_MS * 2 ^ attempt
  if status = 429 then
    match retryAfterSecs with
    | some ra => max delayMs (ra * 1000)
    | none => delayMs
  else delayMs

/-- The message of the timeout error. -/
def timeoutMessage : String :=
  "Request timed out after " ++ toString REQUEST_TIMEOUT_MS ++ "ms"

/-- Final outcome of `request`: the decoded body, or the thrown error's
message. -/
inductive ReqOutcome where
  | success (body : String)
  | failure (message : String)
deriving Repr, DecidableEq

/-- Observable behaviour of one `request` call: its outcome, the number of
fetch attempts made, and the backoff sleeps performed (in order, in ms). -/
structure RequestResult where
  outcome : ReqOutcome
  attempts : Nat
  delays : List Nat
deriving Repr, DecidableEq

/-- The body of `for (let attempt = 0; attempt <= MAX_RETRIES; attempt++)`
in `GafferApiClient.request`.  `fuel` is the number of loop iterations
still permitted (`MAX_RETRIES + 1 - attempt`); `fuel = 0` is the loop
exit, which throws `lastError || new Error('Request failed after retries')`. -/
def requestAux (outcomes : Nat → FetchOutcome) :
    (fuel attempt : Nat) → (lastError : Option String) → RequestResult
  | 0, _, lastError =>
    ⟨.failure (lastError.getD "Request failed after retries"), 0, []⟩
  | fuel + 1, attempt, _ =>
    match outcomes attempt with
    | .response status errMsg retryAfter body =>
      if statusOk status then
        ⟨.success body, 1, []⟩
      else if status ∈ RETRYABLE_STATUS_CODES ∧ attempt < MAX_RETRIES then
        let r := requestAux outcomes fuel (attempt + 1)
          (some (errorMessageFor status errMsg))
        ⟨r.outcome, r.attempts + 1, retryDelayMs status retryAfter attempt :: r.delays⟩
      else
        ⟨.failure (errorMessageFor status errMsg), 1, []⟩
    | .timeout =>
      if attempt < MAX_RETRIES then
        let r := requestAux outcomes fuel (attempt + 1) (some timeoutMessage)
        ⟨r.outcome, r.attempts + 1, INITIAL_RETRY_DELAY_MS * 2 ^ attempt :: r.delays⟩
      else
        ⟨.failure timeoutMessage, 1, []⟩
    | .networkError msg =>
      if attempt < MAX_RETRIES then
        let r := requestAux outcomes fuel (attempt + 1) (some msg)
        ⟨r.outcome, r.attempts + 1, INITIAL_RETRY_DELAY_MS * 2 ^ attempt :: r.delays⟩
      else
        ⟨.failure msg, 1, []⟩
    | .otherFailure msg => ⟨.failure msg, 1, []⟩

/-- Method `GafferApiClient.request` (src/api-client.ts lines 119-187), as a
function of the per-attempt fetch outcomes. -/
def request (outcomes : Nat → FetchOutcome) : RequestResult :=
  requestAux outcomes (MAX_RETRIES + 1) 0 none

/-! ## Credential classification (`detectTokenType`, src/api-client.ts) -/

/-- Type `TokenType` from src/api-client.ts: `user` (a `gaf_` API key, the
spec's `primary` kind) or `project` (an upload token, the spec's `scoped`
kind). -/
inductive TokenType where
  | user
  | project
deriving Repr, DecidableEq

/-- Function `detectTokenType` (src/api-client.ts lines 51-56): `gaf_`-prefixed
tokens are user keys, everything else is a project token. -/
def detectTokenType (token : String) : TokenType :=
  if jsStartsWith token "gaf_" then .user else .project

/-! ## The client and the identity resolver

`GafferApiClient` (the unified-route version carrying the
`resolvedProjectId` cache).  The only mutable state is the cache field, so
the client is modelled as that state plus the token type; methods return
the updated client.

Network effects are made explicit: `CallResult` pairs the returned value
(or thrown error message) with the number of network calls the method
issued before producing it, and methods that end by dispatching a request
return the `ApiRequest` they would issue instead of performing it
(dispatch is the boundary the validation claims speak about).  The
identity-resolution endpoint's answer is abstracted as `net`, the
`response.project.id` of a successful `GET /project`. -/

/-- A query-parameter value as passed to `request` (a string or a number). -/
inductive ParamValue where
  | s (v : String)
  | n (v : Nat)
  | q (v : Rat)
deriving Repr, DecidableEq

/-- A request the client is about to issue: relative endpoint path plus
query parameters (only entries the truthiness spreads kept). -/
structure ApiRequest where
  endpoint : String
  params : List (String × ParamValue)
deriving Repr, DecidableEq

/-- The state of a `GafferApiClient`: the classified token and the
`resolvedProjectId` cache field (`string | null`, starts `null`). -/
structure GafferClient where
  tokenType : TokenType
  resolvedProjectId : Option String
deriving Repr, DecidableEq

/-- Method `GafferApiClient.isUserToken`. -/
def GafferClient.isUserToken (c : GafferClient) : Bool :=
  c.tokenType = TokenType.user

deriving instance DecidableEq for Except

/-- Result of a client method: the value returned (or the thrown error's
message) together with the number of network calls issued. -/
structure CallResult (α : Type) where
  result : Except String α
  networkCalls : Nat
deriving Repr, DecidableEq

/-- Method `GafferApiClient.resolveProjectId` (src/api-client.ts):
return a truthy explicit id verbatim; fail for user tokens; otherwise
serve the cache when truthy, else resolve once over the network via
`GET /project` and populate the cache.  `net` is the id carried by the
resolution response; the returned client is the post-call state. -/
def resolveProjectId (c : GafferClient) (net : String) (projectId : Option String) :
    CallResult (String × GafferClient) :=
  if optStrTruthy projectId then
    ⟨.ok (projectId.getD "", c), 0⟩
  else if c.isUserToken then
    ⟨.error "projectId is required when using a user API Key", 0⟩
  else if optStrTruthy c.resolvedProjectId then
    ⟨.ok (c.resolvedProjectId.getD "", c), 0⟩
  else
    ⟨.ok (net, { c with resolvedProjectId := some net }), 1⟩

/-- Method `GafferApiClient.listProjects`: gated on the token kind before any
request is built; user tokens dispatch `GET /user/projects`. -/
def listProjects (c : GafferClient) (organizationId : Option String)
    (limit offset : Option Nat) : CallResult (ApiRequest × GafferClient) :=
  if !c.isUserToken then
    ⟨.error "list_projects is not available with project tokens (gfr_). Your token is already scoped to a single project â€” call tools directly without passing projectId.", 0⟩
  else
    ⟨.ok ({ endpoint := "/user/projects",
            params :=
              (if optStrTruthy organizationId then
                [("organizationId", ParamValue.s (organizationId.getD ""))] else []) ++
              (if optNatTruthy limit then [("limit", ParamValue.n (limit.getD 0))] else []) ++
              (if optNatTruthy offset then [("offset", ParamValue.n (offset.getD 0))] else []) },
          c), 0⟩

/-- Method `GafferApiClient.getProjectHealth`: resolve the project id, then
dispatch `GET /user/projects/:id/health` with `days: options.days || 30`. -/
def getProjectHealth (c : GafferClient) (net : String) (projectId : Option String)
    (days : Option Nat) : CallResult (ApiRequest × GafferClient) :=
  match resolveProjectId c net projectId with
  | ⟨.error e, n⟩ => ⟨.error e, n⟩
  | ⟨.ok (pid, c'), n⟩ =>
    ⟨.ok ({ endpoint := "/user/projects/" ++ pid ++ "/health",
            params := [("days", ParamValue.n (if optNatTruthy days then days.getD 0 else 30))] },
          c'), n⟩

/-- Method `GafferApiClient.getFlakyTests`: resolve the project id, then dispatch
`GET /user/projects/:id/flaky-tests`; `threshold`, `limit` and `days` are
included through truthiness spreads. -/
def getFlakyTests (c : GafferClient) (net : String) (projectId : Option String)
    (threshold : Option Rat) (limit days : Option Nat) :
    CallResult (ApiRequest × GafferClient) :=
  match resolveProjectId c net projectId with
  | ⟨.error e, n⟩ => ⟨.error e, n⟩
  | ⟨.ok (pid, c'), n⟩ =>
    ⟨.ok ({ endpoint := "/user/projects/" ++ pid ++ "/flaky-tests",
            params :=
              (if optRatTruthy threshold then
                [("threshold", ParamValue.q (threshold.getD 0))] else []) ++
              (if optNatTruthy limit then [("limit", ParamValue.n (limit.getD 0))] else []) ++
              (if optNatTruthy days then [("days", ParamValue.n (days.getD 0))] else []) },
          c'), n⟩

/-- Method `GafferApiClient.getTestHistory`: trim then require at least one
search key, resolve the project id, and dispatch
`GET /user/projects/:id/test-history` with the truthy trimmed values. -/
def getTestHistory (c : GafferClient) (net : String)
    (projectId testName filePath : Option String) (limit : Option Nat) :
    CallResult (ApiRequest × GafferClient) :=
  let tn := testName.map jsTrim
  let fp := filePath.map jsTrim
  if !optStrTruthy tn && !optStrTruthy fp then
    ⟨.error "Either testName or filePath is required (and must not be empty)", 0⟩
  else
    match resolveProjectId c net projectId with
    | ⟨.error e, n⟩ => ⟨.error e, n⟩
    | ⟨.ok (pid, c'), n⟩ =>
      ⟨.ok ({ endpoint := "/user/projects/" ++ pid ++ "/test-history",
              params :=
                (if optStrTruthy tn then [("testName", ParamValue.s (tn.getD ""))] else []) ++
                (if optStrTruthy fp then [("filePath", ParamValue.s (fp.getD ""))] else []) ++
                (if optNatTruthy limit then [("limit", ParamValue.n (limit.getD 0))] else []) },
            c'), n⟩

/-! ## Tool layer: `executeCompareTestMetrics`
(src/tools/compare-test-metrics.ts) -/

/-- Input type `CompareTestMetricsInput` of the compare-test-metrics tool. -/
structure CompareTestMetricsInput where
  projectId : String
  testName : String
  beforeCommit : Option String
  afterCommit : Option String
  beforeRunId : Option String
  afterRunId : Option String
deriving Repr, DecidableEq

/-- Function `executeCompareTestMetrics` validation and dispatch: `hasCommits` and
`hasRunIds` are JavaScript truthiness conjunctions; each supplied pair is
additionally checked to be non-blank after trimming.  The `.ok` value is
the input forwarded field-for-field to `client.compareTestMetrics`
(the dispatch boundary). -/
def executeCompareTestMetrics (input : CompareTestMetricsInput) :
    Except String CompareTestMetricsInput :=
  let hasCommits := optStrTruthy input.beforeCommit && optStrTruthy input.afterCommit
  let hasRunIds := optStrTruthy input.beforeRunId && optStrTruthy input.afterRunId
  if !hasCommits && !hasRunIds then
    .error "Must provide either (beforeCommit + afterCommit) or (beforeRunId + afterRunId)"
  else if hasCommits &&
      ((jsTrim (input.beforeCommit.getD "")).length == 0 ||
       (jsTrim (input.afterCommit.getD "")).length == 0) then
    .error "beforeCommit and afterCommit must not be empty strings"
  else if hasRunIds &&
      ((jsTrim (input.beforeRunId.getD "")).length == 0 ||
       (jsTrim (input.afterRunId.getD "")).length == 0) then
    .error "beforeRunId and afterRunId must not be empty strings"
  else
    .ok input

/-! ## Tool layer: `executeGetTestHistory`
(src/tools/get-test-history.ts)

The upstream JSON is modelled with the three observable states of an
optional string field kept distinct, so that the reshaping's treatment of
absent / null / present values is provable. -/

/-- The three observable states of an optional string field in a JSON
object: missing entirely, explicitly `null`, or a string value. -/
inductive JsonStrField where
  | absent
  | null
  | val (s : String)
deriving Repr, DecidableEq

/-- JavaScript `x || undefined` applied to an optional string field
(`undefined`, `null` and `""` are all falsy and collapse to `undefined`,
i.e. to an absent field). -/
def jsOrUndefined : JsonStrField → JsonStrField
  | .val s => if s == "" then .absent else .val s
  | _ => .absent

/-- One entry of the upstream test-history response
(`TestHistoryEntry` in src/types.ts, with its nested `test` object
flattened into `test*` fields).  `branch`, `commitSha` and `testMessage`
are optional in the declared shape and may arrive absent, null or
present. -/
structure TestHistoryEntry where
  testRunId : String
  createdAt : String
  branch : JsonStrField
  commitSha : JsonStrField
  testName : String
  testStatus : String
  testDurationMs : Rat
  testFilePath : JsonStrField
  testMessage : JsonStrField
deriving Repr, DecidableEq

/-- The upstream test-history summary (`TestHistoryResponse.summary`). -/
structure TestHistorySummary where
  totalRuns : Nat
  passedRuns : Nat
  failedRuns : Nat
  passRate : Option Rat
  searchedBy : String
  searchValue : String
deriving Repr, DecidableEq

/-- The upstream test-history response (`TestHistoryResponse`). -/
structure TestHistoryResponse where
  history : List TestHistoryEntry
  summary : TestHistorySummary
deriving Repr, DecidableEq

/-- One entry of the tool's declared output
(`GetTestHistoryOutput.history` in src/tools/get-test-history.ts). -/
structure HistoryOutputEntry where
  testRunId : String
  createdAt : String
  branch : JsonStrField
  commitSha : JsonStrField
  status : String
  durationMs : Rat
  message : JsonStrField
deriving Repr, DecidableEq

/-- The tool's declared output summary. -/
structure HistoryOutputSummary where
  totalRuns : Nat
  passedRuns : Nat
  failedRuns : Nat
  passRate : Option Rat
deriving Repr, DecidableEq

/-- Declared output type `GetTestHistoryOutput` of the tool. -/
structure GetTestHistoryOutput where
  history : List HistoryOutputEntry
  summary : HistoryOutputSummary
deriving Repr, DecidableEq

/-- The per-entry reshaping inside `executeGetTestHistory`:
every field is copied verbatim except `message`, which the source computes
as `entry.test.message || undefined`. -/
def mapTestHistoryEntry (e : TestHistoryEntry) : HistoryOutputEntry :=
  { testRunId := e.testRunId
    createdAt := e.createdAt
    branch := e.branch
    commitSha := e.commitSha
    status := e.testStatus
    durationMs := e.testDurationMs
    message := jsOrUndefined e.testMessage }

/-- Input type `GetTestHistoryInput` of the tool. -/
structure GetTestHistoryInput where
  projectId : Option String
  testName : Option String
  filePath : Option String
  limit : Option Nat
deriving Repr, DecidableEq

/-- Function `executeGetTestHistory` (src/tools/get-test-history.ts): tool-level
presence check, delegation to `client.getTestHistory` with
`limit: input.limit || 20`, then the field-for-field reshaping of the
upstream response.  `resp` is the upstream response the dispatched request
would receive; consuming it counts as one further network call. -/
def executeGetTestHistory (c : GafferClient) (net : String)
    (resp : TestHistoryResponse) (input : GetTestHistoryInput) :
    CallResult (GetTestHistoryOutput × GafferClient) :=
  if !optStrTruthy input.testName && !optStrTruthy input.filePath then
    ⟨.error "Either testName or filePath is required", 0⟩
  else
    match getTestHistory c net input.projectId input.testName input.filePath
        (some (if optNatTruthy input.limit then input.limit.getD 0 else 20)) with
    | ⟨.error e, n⟩ => ⟨.error e, n⟩
    | ⟨.ok (_req, c'), n⟩ =>
      ⟨.ok ({ history := resp.history.map mapTestHistoryEntry
              summary :=
                { totalRuns := resp.summary.totalRuns
                  passedRuns := resp.summary.passedRuns
                  failedRuns := resp.summary.failedRuns
                  passRate := resp.summary.passRate } },
            c'), n + 1⟩

/-- A field of an options object counts as supplied when it is present
and non-blank after trimming (the spec treats whitespace-only values as
absent). -/
def suppliedNonblank (o : Option String) : Prop :=
  ∃ s, o = some s ∧ jsTrim s ≠ ""

/-! ## Helper lemmas -/

/-- Trimming the empty string yields the empty string. -/
theorem jsTrim_empty : jsTrim "" = "" := by decide

/-- A string has length zero exactly when it is empty. -/
theorem length_eq_zero_iff (s : String) : s.length = 0 ↔ s = "" := by
  rw [String.ext_iff]
  exact List.length_eq_zero

/-- A supplied non-blank optional string field is truthy. -/
theorem suppliedNonblank_truthy {o : Option String} (h : suppliedNonblank o) :
    optStrTruthy o = true := by
  obtain ⟨s, rfl, hs⟩ := h
  have : s ≠ "" := by rintro rfl; exact hs jsTrim_empty
  simp [optStrTruthy, strTruthy, this]

/-- Characterisation of `leadsWith` as list concatenation. -/
theorem leadsWith_iff_append (l₁ l₂ : List Char) :
    leadsWith l₁ l₂ = true ↔ ∃ t, l₁ ++ t = l₂ := by
  induction l₁ generalizing l₂ with
  | nil => simp [leadsWith]
  | cons a as ih =>
    cases l₂ with
    | nil => simp [leadsWith]
    | cons b bs => simp [leadsWith, ih bs]

/-- Characterisation of `jsStartsWith` as string concatenation. -/
theorem jsStartsWith_iff (s pre : String) :
    jsStartsWith s pre = true ↔ ∃ t, s = pre ++ t := by
  rw [jsStartsWith, leadsWith_iff_append]
  constructor
  · rintro ⟨t, ht⟩
    exact ⟨⟨t⟩, by rw [String.ext_iff, String.data_append]; exact ht.symm⟩
  · rintro ⟨t, rfl⟩
    exact ⟨t.data, (String.data_append pre t).symm⟩

/-! ## Claim theorems -/

/-- C1: when every attempt's response carries the retryable status 503,
`request` makes exactly 4 attempts (1 initial + 3 retries), sleeps
1000 ms, 2000 ms and 4000 ms before the three retries, and then fails
with the message derived from the last response (its structured error
message when present, else the generic status-code message). -/
theorem request_always_503_exhausts_retries
    (f : Nat → Option String) (ra : Nat → Option Nat) (b : Nat → String) :
    request (fun n => .response 503 (f n) (ra n) (b n)) =
      ⟨.failure ((f 3).getD "API request failed: 503"), 4, [1000, 2000, 4000]⟩ := by
  simp [request, requestAux, statusOk, RETRYABLE_STATUS_CODES, MAX_RETRIES,
        retryDelayMs, INITIAL_RETRY_DELAY_MS, errorMessageFor]
  congr 1

/-- C2: a response whose status is a failure (not 2xx) and not in the
retryable set makes `request` fail after exactly 1 attempt, with no
backoff sleeps, and with the structured error body's message when present
(else the generic status-code message) — never the generic
exhausted-retries message. -/
theorem request_nonretryable_fails_immediately
    (s : Nat) (msg : Option String) (ra : Option Nat) (b : String)
    (hok : statusOk s = false) (hr : s ∉ RETRYABLE_STATUS_CODES) :
    request (fun _ => .response s msg ra b) =
      ⟨.failure (msg.getD ("API request failed: " ++ toString s)), 1, []⟩ := by
  simp [request, requestAux, hok, hr, errorMessageFor, MAX_RETRIES]

/-- Witness for C2: a 404 response with body `error.message = "not found"`
fails on the first attempt with exactly that message. -/
theorem request_nonretryable_fails_immediately_witness :
    request (fun _ => .response 404 (some "not found") none "") =
      ⟨.failure "not found", 1, []⟩ :=
  request_nonretryable_fails_immediately 404 (some "not found") none ""
    (by decide) (by decide)

/-- C3: for a 429 response carrying a `Retry-After` header of `ra`
seconds, the delay before retry attempt `n` (0-indexed) is
`max (1000 × 2^n) (ra × 1000)` milliseconds; a run of all-429 responses
therefore sleeps exactly those maxima, and with `Retry-After: 10` the
first delay is 10000 ms rather than the bare exponential 1000 ms. -/
theorem request_429_retry_after_delay
    (ra : Nat) (msg : Nat → Option String) (b : Nat → String) :
    (∀ n, retryDelayMs 429 (some ra) n = max (1000 * 2 ^ n) (ra * 1000)) ∧
    (request (fun k => .response 429 (msg k) (some ra) (b k))).delays =
      [max 1000 (ra * 1000), max 2000 (ra * 1000), max 4000 (ra * 1000)] ∧
    (request (fun _ => .response 429 none (some 10) "")).delays.head? = some 10000 := by
  refine ⟨fun n => by simp [retryDelayMs, INITIAL_RETRY_DELAY_MS], ?_, ?_⟩
  · simp [request, requestAux, statusOk, RETRYABLE_STATUS_CODES, MAX_RETRIES,
          retryDelayMs, INITIAL_RETRY_DELAY_MS]
  · decide

/-- C4 counterexample: when the identity-resolution endpoint answers with
the empty string, two sequential cache-less calls both hit the network —
the first call does populate the cache field (with `""`), but the
truthiness cache check never sees it, so the second call issues a second
resolution network call, contradicting "at most one resolution network
call". -/
theorem resolveProjectId_empty_id_recalls_network :
    resolveProjectId ⟨.project, none⟩ "" none = ⟨.ok ("", ⟨.project, some ""⟩), 1⟩ ∧
    (resolveProjectId ⟨.project, some ""⟩ "" none).networkCalls = 1 := by
  decide

/-- C4 (amended): for a scoped (project) credential and a non-empty
resolved identifier, the first cache-less `resolveProjectId` call issues
exactly one resolution network call and populates the cache, and any
second call is served from the cache with no network call; both calls
return the same identifier. -/
theorem resolveProjectId_caches_nonempty_id (net net' : String) (h : net ≠ "") :
    resolveProjectId ⟨.project, none⟩ net none =
      ⟨.ok (net, ⟨.project, some net⟩), 1⟩ ∧
    resolveProjectId ⟨.project, some net⟩ net' none =
      ⟨.ok (net, ⟨.project, some net⟩), 0⟩ := by
  constructor
  · simp [resolveProjectId, optStrTruthy, strTruthy, GafferClient.isUserToken]
  · simp [resolveProjectId, optStrTruthy, strTruthy, GafferClient.isUserToken, h]

/-- Witness for C4 (amended): with the endpoint answering `"proj-1"`, the
first call resolves over the network and the second is served from
cache. -/
theorem resolveProjectId_caches_nonempty_id_witness :
    resolveProjectId ⟨.project, none⟩ "proj-1" none =
      ⟨.ok ("proj-1", ⟨.project, some "proj-1"⟩), 1⟩ ∧
    resolveProjectId ⟨.project, some "proj-1"⟩ "other" none =
      ⟨.ok ("proj-1", ⟨.project, some "proj-1"⟩), 0⟩ :=
  resolveProjectId_caches_nonempty_id "proj-1" "other" (by decide)

/-- C5: a user (primary) credential never issues a resolution network
call — `resolveProjectId` with no explicit id fails with the
configuration error before any network call — and a project (scoped)
credential can never reach the multi-project listing endpoint:
`listProjects` fails immediately, with no network call, on the
kind check. -/
theorem credential_capability_gates :
    (∀ (cache : Option String) (net : String) (pid : Option String),
      (resolveProjectId ⟨.user, cache⟩ net pid).networkCalls = 0) ∧
    (∀ (cache : Option String) (net : String),
      resolveProjectId ⟨.user, cache⟩ net none =
        ⟨.error "projectId is required when using a user API Key", 0⟩) ∧
    (∀ (cache : Option String) (org : Option String) (lim off : Option Nat),
      listProjects ⟨.project, cache⟩ org lim off =
        ⟨.error "list_projects is not available with project tokens (gfr_). Your token is already scoped to a single project â€” call tools directly without passing projectId.", 0⟩) := by
  refine ⟨?_, ?_, ?_⟩
  · intro cache net pid
    by_cases hp : optStrTruthy pid <;>
      simp [resolveProjectId, hp, GafferClient.isUserToken]
  · intro cache net
    simp [resolveProjectId, optStrTruthy, GafferClient.isUserToken]
  · intro cache org lim off
    simp [listProjects, GafferClient.isUserToken]

/-- C6: `detectTokenType` returns `user` exactly for strings that start
with the literal prefix `gaf_` and `project` otherwise; in particular
`gaf_abc123` is a user key and `gfr_xyz` and the empty string are
project tokens.  (The function is a pure string test by construction.) -/
theorem detectTokenType_prefix_classification :
    (∀ s : String, detectTokenType s = .user ↔ ∃ t, s = "gaf_" ++ t) ∧
    detectTokenType "gaf_abc123" = .user ∧
    detectTokenType "gfr_xyz" = .project ∧
    detectTokenType "" = .project := by
  refine ⟨?_, by decide, by decide, by decide⟩
  intro s
  rw [← jsStartsWith_iff s "gaf_"]
  by_cases h : jsStartsWith s "gaf_" <;> simp [detectTokenType, h]

/-- C7: `executeCompareTestMetrics` rejects, before any dispatch, every
input in which neither the commit pair nor the run-id pair is completely
supplied (truthiness-wise), and accepts — forwarding the input unchanged
to the client — every input in which both pairs are completely supplied
with non-blank values. -/
theorem compareTestMetrics_axis_validation :
    (∀ input : CompareTestMetricsInput,
      (optStrTruthy input.beforeCommit && optStrTruthy input.afterCommit) = false →
      (optStrTruthy input.beforeRunId && optStrTruthy input.afterRunId) = false →
      executeCompareTestMetrics input =
        .error "Must provide either (beforeCommit + afterCommit) or (beforeRunId + afterRunId)") ∧
    (∀ input : CompareTestMetricsInput,
      suppliedNonblank input.beforeCommit → suppliedNonblank input.afterCommit →
      suppliedNonblank input.beforeRunId → suppliedNonblank input.afterRunId →
      executeCompareTestMetrics input = .ok input) := by
  constructor
  · intro input h1 h2
    simp [executeCompareTestMetrics, h1, h2]
  · intro input h1 h2 h3 h4
    obtain ⟨bc, hbc, hbc'⟩ := h1
    obtain ⟨ac, hac, hac'⟩ := h2
    obtain ⟨br, hbr, hbr'⟩ := h3
    obtain ⟨ar, har, har'⟩ := h4
    have t1 := suppliedNonblank_truthy ⟨bc, hbc, hbc'⟩
    have t2 := suppliedNonblank_truthy ⟨ac, hac, hac'⟩
    have t3 := suppliedNonblank_truthy ⟨br, hbr, hbr'⟩
    have t4 := suppliedNonblank_truthy ⟨ar, har, har'⟩
    have l1 : ((jsTrim (input.beforeCommit.getD "")).length == 0) = false := by
      rw [hbc]; simpa [length_eq_zero_iff] using hbc'
    have l2 : ((jsTrim (input.afterCommit.getD "")).length == 0) = false := by
      rw [hac]; simpa [length_eq_zero_iff] using hac'
    have l3 : ((jsTrim (input.beforeRunId.getD "")).length == 0) = false := by
      rw [hbr]; simpa [length_eq_zero_iff] using hbr'
    have l4 : ((jsTrim (input.afterRunId.getD "")).length == 0) = false := by
      rw [har]; simpa [length_eq_zero_iff] using har'
    simp [executeCompareTestMetrics, t1, t2, t3, t4, l1, l2, l3, l4]

/-- Witness for C7: the no-pair input fails validation, and the
both-pairs input is forwarded to dispatch unchanged. -/
theorem compareTestMetrics_axis_validation_witness :
    executeCompareTestMetrics ⟨"p", "x", none, none, none, none⟩ =
      .error "Must provide either (beforeCommit + afterCommit) or (beforeRunId + afterRunId)" ∧
    executeCompareTestMetrics ⟨"p", "x", some "a", some "b", some "r1", some "r2"⟩ =
      .ok ⟨"p", "x", some "a", some "b", some "r1", some "r2"⟩ :=
  ⟨compareTestMetrics_axis_validation.1 ⟨"p", "x", none, none, none, none⟩
     (by decide) (by decide),
   compareTestMetrics_axis_validation.2 ⟨"p", "x", some "a", some "b", some "r1", some "r2"⟩
     ⟨"a", rfl, by decide⟩ ⟨"b", rfl, by decide⟩ ⟨"r1", rfl, by decide⟩ ⟨"r2", rfl, by decide⟩⟩

/-- C8 counterexample: an upstream test-history entry whose per-entry
`test.message` is explicitly null comes out of `executeGetTestHistory`
with `message` absent (dropped), not null — the null is not preserved in
the operation's output. -/
theorem testHistory_null_message_not_preserved :
    (executeGetTestHistory ⟨.user, none⟩ ""
       ⟨[{ testRunId := "r1", createdAt := "t", branch := .absent, commitSha := .null,
           testName := "n", testStatus := "failed", testDurationMs := 5,
           testFilePath := .absent, testMessage := .null }],
        ⟨1, 0, 1, none, "testName", "n"⟩⟩
       ⟨some "p", some "n", none, none⟩).result =
      .ok ({ history := [{ testRunId := "r1", createdAt := "t", branch := .absent,
                           commitSha := .null, status := "failed", durationMs := 5,
                           message := .absent }],
             summary := ⟨1, 0, 1, none⟩ }, ⟨.user, none⟩) ∧
    JsonStrField.absent ≠ JsonStrField.null := by
  decide

/-- C8 (amended): the test-history reshaping preserves the three states
absent / null / present verbatim for `commitSha` and `branch`, while the
per-entry `message` goes through `entry.test.message || undefined`: a
null, absent, or empty-string message becomes absent, and a non-empty
message is kept; the operation's output history is exactly this per-entry
map of the upstream history. -/
theorem testHistory_field_reshaping :
    (∀ e : TestHistoryEntry,
      (mapTestHistoryEntry e).commitSha = e.commitSha ∧
      (mapTestHistoryEntry e).branch = e.branch) ∧
    (∀ e : TestHistoryEntry, e.testMessage = .null →
      (mapTestHistoryEntry e).message = .absent) ∧
    (∀ e : TestHistoryEntry, e.testMessage = .absent →
      (mapTestHistoryEntry e).message = .absent) ∧
    (∀ (e : TestHistoryEntry) (s : String), e.testMessage = .val s → s ≠ "" →
      (mapTestHistoryEntry e).message = .val s) ∧
    (∀ (c : GafferClient) (net : String) (resp : TestHistoryResponse)
        (input : GetTestHistoryInput) (out : GetTestHistoryOutput) (c' : GafferClient),
      (executeGetTestHistory c net resp input).result = .ok (out, c') →
      out.history = resp.history.map mapTestHistoryEntry) := by
  refine ⟨fun e => ⟨rfl, rfl⟩, fun e h => by simp [mapTestHistoryEntry, h, jsOrUndefined],
    fun e h => by simp [mapTestHistoryEntry, h, jsOrUndefined],
    fun e s h hs => by simp [mapTestHistoryEntry, h, jsOrUndefined, hs], ?_⟩
  intro c net resp input out c' h
  unfold executeGetTestHistory at h
  split at h
  · simp at h
  · split at h
    · simp at h
    · simp only [Except.ok.injEq, Prod.mk.injEq] at h
      obtain ⟨h2, -⟩ := h
      rw [← h2]

/-- Witness for C8 (amended): concrete entries with a null, an absent,
and a non-empty message map to absent, absent, and the same value
respectively. -/
theorem testHistory_field_reshaping_witness :
    (mapTestHistoryEntry { testRunId := "a", createdAt := "b", branch := .null,
                           commitSha := .val "c1", testName := "n", testStatus := "passed",
                           testDurationMs := 1, testFilePath := .absent,
                           testMessage := .null }).message = .absent ∧
    (mapTestHistoryEntry { testRunId := "a", createdAt := "b", branch := .absent,
                           commitSha := .absent, testName := "n", testStatus := "passed",
                           testDurationMs := 1, testFilePath := .absent,
                           testMessage := .absent }).message = .absent ∧
    (mapTestHistoryEntry { testRunId := "a", createdAt := "b", branch := .absent,
                           commitSha := .absent, testName := "n", testStatus := "failed",
                           testDurationMs := 1, testFilePath := .absent,
                           testMessage := .val "boom" }).message = .val "boom" :=
  ⟨testHistory_field_reshaping.2.1 _ rfl,
   testHistory_field_reshaping.2.2.1 _ rfl,
   testHistory_field_reshaping.2.2.2.1 _ "boom" rfl (by decide)⟩

/-- C9: `getTestHistory` fails before any network call whenever both
search keys are empty after trimming; the whitespace-only `testName` call
is literally identical in behaviour to the call with neither key; and at
the tool level both calls also issue zero network calls. -/
theorem getTestHistory_requires_search_key :
    (∀ (c : GafferClient) (net : String) (pid tn fp : Option String) (lim : Option Nat),
      optStrTruthy (tn.map jsTrim) = false →
      optStrTruthy (fp.map jsTrim) = false →
      getTestHistory c net pid tn fp lim =
        ⟨.error "Either testName or filePath is required (and must not be empty)", 0⟩) ∧
    (∀ (c : GafferClient) (net : String) (pid : Option String) (lim : Option Nat),
      getTestHistory c net pid (some "   ") none lim =
        getTestHistory c net pid none none lim) ∧
    (∀ (c : GafferClient) (net : String) (resp : TestHistoryResponse)
        (pid : Option String) (lim : Option Nat),
      (executeGetTestHistory c net resp ⟨pid, some "   ", none, lim⟩).networkCalls = 0 ∧
      (executeGetTestHistory c net resp ⟨pid, none, none, lim⟩).networkCalls = 0) := by
  have part1 : ∀ (c : GafferClient) (net : String) (pid tn fp : Option String)
      (lim : Option Nat),
      optStrTruthy (tn.map jsTrim) = false →
      optStrTruthy (fp.map jsTrim) = false →
      getTestHistory c net pid tn fp lim =
        ⟨.error "Either testName or filePath is required (and must not be empty)", 0⟩ := by
    intro c net pid tn fp lim h1 h2
    simp [getTestHistory, h1, h2]
  refine ⟨part1, ?_, ?_⟩
  · intro c net pid lim
    rw [part1 c net pid (some "   ") none lim (by decide) (by decide),
        part1 c net pid none none lim (by decide) (by decide)]
  · intro c net resp pid lim
    constructor
    · have h := part1 c net pid (some "   ") none
        (some (if optNatTruthy lim then lim.getD 0 else 20)) (by decide) (by decide)
      simp [executeGetTestHistory, h, optStrTruthy, strTruthy]
    · simp [executeGetTestHistory, optStrTruthy]

/-- Witness for C9: the concrete whitespace-only call fails validation
with zero network calls. -/
theorem getTestHistory_requires_search_key_witness :
    getTestHistory ⟨.user, none⟩ "" (some "p") (some "   ") none none =
      ⟨.error "Either testName or filePath is required (and must not be empty)", 0⟩ :=
  getTestHistory_requires_search_key.1 ⟨.user, none⟩ "" (some "p") (some "   ") none none
    (by decide) (by decide)

/-- C10: supplying 0 for `threshold`, `limit` or `days` of the
flaky-tests operation behaves exactly like omitting them (the truthiness
spreads drop them from the query), and supplying `days: 0` to the
project-health operation behaves exactly like omitting it (the `|| 30`
default replaces it); concretely, the all-zero flaky-tests call carries an
empty query and the zero-days health call carries `days = 30`. -/
theorem zero_valued_params_never_sent :
    (∀ (c : GafferClient) (net : String) (pid : Option String),
      getFlakyTests c net pid (some 0) (some 0) (some 0) =
        getFlakyTests c net pid none none none) ∧
    (∀ (c : GafferClient) (net : String) (pid : Option String),
      getProjectHealth c net pid (some 0) = getProjectHealth c net pid none) ∧
    (getFlakyTests ⟨.user, none⟩ "" (some "p") (some 0) (some 0) (some 0)).result =
      .ok ({ endpoint := "/user/projects/p/flaky-tests", params := [] }, ⟨.user, none⟩) ∧
    (getProjectHealth ⟨.user, none⟩ "" (some "p") (some 0)).result =
      .ok ({ endpoint := "/user/projects/p/health", params := [("days", ParamValue.n 30)] },
           ⟨.user, none⟩) := by
  refine ⟨?_, ?_, by decide, by decide⟩
  · intro c net pid
    cases h : resolveProjectId c net pid with
    | mk res n => cases res <;> simp [getFlakyTests, h, optRatTruthy, optNatTruthy]
  · intro c net pid
    cases h : resolveProjectId c net pid with
    | mk res n => cases res <;> simp [getProjectHealth, h, optNatTruthy]

end Gaffer
